import Mathlib

/-!
# Qt music player widget: playback / UI synchronisation

A shallow embedding of `musicplayer.cpp`.  The widget is a record of the
observable properties of its child widgets; the media engine is a read-only
snapshot of the values its query methods return, and the commands sent to it
are collected in a list.  Toolkit classes (`QString`, `QAbstractSlider`) are
modelled only as far as the widget uses them.
-/

namespace QtMusicPlayer

/-! ## Strings -/

/-- A `QString` is the sequence of its characters. -/
abbrev QString := List Char

/-- One lexical unit of a format string, as `QString::arg` sees it: an ordinary
character, or a place marker `%d` / `%dd` with its number and its source text. -/
inductive Piece where
  | ch (c : Char)
  | marker (n : Nat) (src : List Char)
deriving DecidableEq, Repr

/-- Scanner state of the place-marker search: in plain text, just after a `%`,
or after a `%` and one digit. -/
inductive Scan where
  | text
  | percent
  | digit (d : Char)
deriving DecidableEq, Repr

/-- Value of a decimal digit character. -/
def digitValue (c : Char) : Nat := c.toNat - 48

/-- The scan of `findArgEscapes`: a `%` followed by one or two decimal digits is
a place marker; a `%` followed by anything else is text, and the character after
it is examined again.  The locale form `%L1` does not occur in this program and
is not modelled. -/
def tokens : Scan → List Char → List Piece
  | .text, [] => []
  | .text, c :: cs =>
      if c = '%' then tokens .percent cs else .ch c :: tokens .text cs
  | .percent, [] => [.ch '%']
  | .percent, c :: cs =>
      if c.isDigit then tokens (.digit c) cs
      else if c = '%' then .ch '%' :: tokens .percent cs
      else .ch '%' :: .ch c :: tokens .text cs
  | .digit d, [] => [.marker (digitValue d) ['%', d]]
  | .digit d, c :: cs =>
      if c.isDigit then
        .marker (10 * digitValue d + digitValue c) ['%', d, c] :: tokens .text cs
      else if c = '%' then .marker (digitValue d) ['%', d] :: tokens .percent cs
      else .marker (digitValue d) ['%', d] :: .ch c :: tokens .text cs

/-- The lowest place-marker number present, if any. -/
def lowestEscape : List Piece → Option Nat
  | [] => none
  | .ch _ :: ps => lowestEscape ps
  | .marker n _ :: ps =>
      match lowestEscape ps with
      | none => some n
      | some m => some (min n m)

/-- Every marker numbered `k` is replaced by `a`; the rest is copied. -/
def replaceArgEscapes (k : Nat) (a : QString) : List Piece → QString
  | [] => []
  | .ch c :: ps => c :: replaceArgEscapes k a ps
  | .marker n src :: ps => (if n = k then a else src) ++ replaceArgEscapes k a ps

/-- Embedding of `QString::arg(const QString &a, int fieldWidth, QChar fillChar)` for a
non-negative field width: the lowest-numbered place marker is replaced by `a`,
padded on the left to the field width.  Without a marker the string is
returned as it is. -/
def arg (s : QString) (a : QString) (fieldWidth : Nat) (fillChar : Char) : QString :=
  match lowestEscape (tokens .text s) with
  | none => s
  | some k => replaceArgEscapes k (List.leftpad fieldWidth fillChar a) (tokens .text s)

/-- Embedding of `QLocaleData::longLongToString` in base 10 without flags other than
`ZeroPadded`: the digits of the magnitude, zero padding that leaves room for the
sign, then the sign. -/
def longLongToString (l : Int) (width : Nat) (zeroPadded : Bool) : QString :=
  let negative := decide (l < 0)
  let numStr := Nat.toDigits 10 l.natAbs
  let numStr :=
    if zeroPadded then
      List.replicate (width - numStr.length - (if negative then 1 else 0)) '0' ++ numStr
    else numStr
  if negative then '-' :: numStr else numStr

/-- Embedding of `QString::arg(qlonglong a, int fieldWidth, int base = 10, QChar fillChar)`. -/
def argInt (s : QString) (a : Int) (fieldWidth : Nat) (fillChar : Char) : QString :=
  arg s (longLongToString a fieldWidth (decide (fillChar = '0'))) fieldWidth fillChar

/-- Embedding of `QObject::tr`: with no translation loaded it returns the source
text. -/
def tr (s : String) : QString := s.toList

/-- Embedding of `QStringList::join`. -/
def join (l : List QString) (sep : QString) : QString := sep.intercalate l

/-! ## Time display -/

/-- Embedding of `formatTime(qint64 timeMilliSeconds)`.  C++ integer division truncates
toward zero; no intermediate value leaves the range of its argument. -/
def formatTime (timeMilliSeconds : Int) : QString :=
  let seconds := Int.tdiv timeMilliSeconds 1000
  let minutes := Int.tdiv seconds 60
  let seconds := seconds - minutes * 60
  argInt (argInt "%1:%2".toList minutes 2 '0') seconds 2 '0'

/-! ## Machine integers -/

/-- Conversion to `qint64` (two's complement, 64 bits). -/
def toInt64 (x : Int) : Int := (x + 2 ^ 63) % 2 ^ 64 - 2 ^ 63

/-- Conversion to `int` (two's complement, 32 bits), as when a `qint64` is
passed where the toolkit takes an `int`. -/
def toInt (x : Int) : Int := (x + 2 ^ 31) % 2 ^ 32 - 2 ^ 31

/-- Embedding of `qAbs(t)`, which is `t >= 0 ? t : -t`, the negation taken in the type of `t`,
whose conversion is `conv`. -/
def qAbs (conv : Int → Int) (t : Int) : Int := if t ≥ 0 then t else conv (-t)

/-! ## Data -/

/-- A point of the screen, `QPoint`. -/
structure QPoint where
  x : Int
  y : Int
deriving DecidableEq, Repr

/-- Embedding of `QPoint()`, the null point. -/
def QPoint.null : QPoint := ⟨0, 0⟩

instance : Sub QPoint := ⟨fun a b => ⟨a.x - b.x, a.y - b.y⟩⟩

/-- What the widget reads of a `QUrl`: whether it is a local file, its local
path, its text, and the name of the media type the MIME database resolves it to. -/
structure QUrl where
  isLocalFile : Bool
  toLocalFile : QString
  toString : QString
  mimeType : QString
deriving DecidableEq, Repr

/-- Embedding of `QMediaPlayer::State`. -/
inductive State where
  | StoppedState
  | PlayingState
  | PausedState
deriving DecidableEq, Repr

/-- Embedding of `QMediaPlayer::MediaStatus`. -/
inductive MediaStatus where
  | UnknownMediaStatus
  | NoMedia
  | LoadingMedia
  | LoadedMedia
  | StalledMedia
  | BufferingMedia
  | BufferedMedia
  | EndOfMedia
  | InvalidMedia
deriving DecidableEq, Repr

/-- The standard icons the widget uses. -/
inductive StandardPixmap where
  | SP_MediaPlay
  | SP_MediaStop
  | SP_MediaPause
deriving DecidableEq, Repr

/-- The media engine as the widget queries it: one field for each query method
called in `musicplayer.cpp`. -/
structure QMediaPlayer where
  mediaStatus : MediaStatus
  state : State
  position : Int
  duration : Int
  isMetaDataAvailable : Bool
  author : QString
  title : QString
  errorString : QString
  error : Int
deriving DecidableEq, Repr

/-- The commands the widget sends to the media engine. -/
inductive EngineCommand where
  | setMedia (url : QUrl)
  | play
  | pause
  | setPosition (position : Int)
deriving DecidableEq, Repr

/-- The commands the widget sends to the task bar button and its progress
indicator. -/
inductive ShellCommand where
  | setOverlayIcon (icon : StandardPixmap)
  | progressShow
  | progressHide
  | progressPause
  | progressResume
deriving DecidableEq, Repr

/-- The properties of a button that the widget sets. -/
structure QToolButton where
  enabled : Bool
  toolTip : QString
  icon : StandardPixmap
deriving DecidableEq, Repr

/-- The properties of the seek slider that the widget sets or relies on. -/
structure QSlider where
  minimum : Int
  maximum : Int
  value : Int
  pageStep : Int
  enabled : Bool
deriving DecidableEq, Repr

/-- The three buttons of the thumbnail tool bar. -/
structure ThumbnailToolBar where
  playToolButton : QToolButton
  forwardToolButton : QToolButton
  backwardToolButton : QToolButton
deriving DecidableEq, Repr

/-- The widget: its child widgets, its members and its window position. -/
structure MusicPlayer where
  playButton : QToolButton
  positionSlider : QSlider
  infoLabel : QString
  positionLabel : QString
  fileName : QString
  times : QString
  Url : List QUrl
  offset : QPoint
  pos : QPoint
  windowFilePath : QString
deriving DecidableEq, Repr

/-- How the file dialog ends: rejected, or accepted with at least one selected
URL. -/
inductive QFileDialog where
  | rejected (selectedUrls : List QUrl)
  | accepted (first : QUrl) (others : List QUrl)
deriving DecidableEq, Repr

/-- A mouse event on the window with its global cursor position. -/
inductive MouseEvent where
  | press (globalPos : QPoint)
  | move (globalPos : QPoint)
  | release (globalPos : QPoint)
deriving DecidableEq, Repr

/-! ## The slider -/

/-- Embedding of `QAbstractSlider::setValue`: the value is bounded to the range; when it
changes, `valueChanged` is emitted with the new value. -/
def QSlider.setValue (s : QSlider) (value : Int) : QSlider × Option Int :=
  let v := max s.minimum (min s.maximum value)
  if s.value = v then (s, none) else ({ s with value := v }, some v)

/-- Embedding of `QAbstractSlider::setRange`: the maximum is never below the minimum, and a
changed range bounds the value again. -/
def QSlider.setRange (s : QSlider) (min max : Int) : QSlider × Option Int :=
  let s1 : QSlider := { s with minimum := min, maximum := Max.max min max }
  if s.minimum ≠ s1.minimum ∨ s.maximum ≠ s1.maximum then s1.setValue s1.value
  else (s1, none)

/-- Embedding of `QWidget::setEnabled`. -/
def QSlider.setEnabled (s : QSlider) (enable : Bool) : QSlider :=
  { s with enabled := enable }

/-- Embedding of `QAbstractSlider::setPageStep`, which stores `qAbs(step)`. -/
def QSlider.setPageStep (s : QSlider) (step : Int) : QSlider :=
  { s with pageStep := qAbs toInt step }

/-! ## The widget's methods -/

/-- The widget as `createWidgets` leaves it, at window position `pos`; the
slider has the toolkit's default range, value and page step. -/
def createWidgets (pos : QPoint) : MusicPlayer :=
  { playButton := { enabled := false, toolTip := tr "Play", icon := .SP_MediaPlay }
    positionSlider := { minimum := 0, maximum := 99, value := 0, pageStep := 10, enabled := false }
    infoLabel := []
    positionLabel := tr "00:00"
    fileName := []
    times := []
    Url := []
    offset := QPoint.null
    pos := pos
    windowFilePath := [] }

/-- Embedding of `QDir::toNativeSeparators` on the platform of this program: every slash
becomes a backslash. -/
def toNativeSeparators (path : QString) : QString :=
  path.map (fun c => if c = '/' then Char.ofNat 92 else c)

/-- Embedding of `QFileInfo(filePath).fileName()`: what follows the last slash. -/
def fileNameOf (filePath : QString) : QString :=
  (filePath.reverse.takeWhile (fun c => c ≠ '/')).reverse

/-- Embedding of `MusicPlayer::playUrl`. -/
def MusicPlayer.playUrl (self : MusicPlayer) (url : QUrl) : MusicPlayer × List EngineCommand :=
  let self := { self with playButton := { self.playButton with enabled := true } }
  let self :=
    if url.isLocalFile then
      let filePath := url.toLocalFile
      { self with
        windowFilePath := filePath
        infoLabel := toNativeSeparators filePath
        fileName := fileNameOf filePath }
    else
      { self with
        windowFilePath := []
        infoLabel := url.toString
        fileName := [] }
  (self, [.setMedia url, .play])

/-- Embedding of `MusicPlayer::openFile`, given how the dialog ends. -/
def MusicPlayer.openFile (self : MusicPlayer) (fileDialog : QFileDialog) :
    MusicPlayer × List EngineCommand :=
  match fileDialog with
  | .accepted first others =>
      let r := self.playUrl first
      ({ r.1 with Url := first :: others }, r.2)
  | .rejected selectedUrls => ({ self with Url := selectedUrls }, [])

/-- Embedding of `MusicPlayer::togglePlayback`. -/
def MusicPlayer.togglePlayback (self : MusicPlayer) (mediaPlayer : QMediaPlayer)
    (fileDialog : QFileDialog) : MusicPlayer × List EngineCommand :=
  if mediaPlayer.mediaStatus = .NoMedia then self.openFile fileDialog
  else if mediaPlayer.state = .PlayingState then (self, [.pause])
  else (self, [.play])

/-- Embedding of `MusicPlayer::mousePressEvent`. -/
def MusicPlayer.mousePressEvent (self : MusicPlayer) (globalPos : QPoint) : MusicPlayer :=
  { self with offset := globalPos - self.pos }

/-- Embedding of `MusicPlayer::mouseMoveEvent`; `move` sets the window position. -/
def MusicPlayer.mouseMoveEvent (self : MusicPlayer) (globalPos : QPoint) : MusicPlayer :=
  { self with pos := globalPos - self.offset }

/-- Embedding of `MusicPlayer::mouseReleaseEvent`. -/
def MusicPlayer.mouseReleaseEvent (self : MusicPlayer) (_globalPos : QPoint) : MusicPlayer :=
  { self with offset := QPoint.null }

/-- Dispatch of one mouse event to its handler. -/
def MusicPlayer.mouseEvent (self : MusicPlayer) : MouseEvent → MusicPlayer
  | .press g => self.mousePressEvent g
  | .move g => self.mouseMoveEvent g
  | .release g => self.mouseReleaseEvent g

/-- The widget after a sequence of mouse events. -/
def MusicPlayer.mouseEvents (self : MusicPlayer) (events : List MouseEvent) : MusicPlayer :=
  events.foldl MusicPlayer.mouseEvent self

/-- Whether a press is active after a sequence of mouse events: the last press
or release in it is a press. -/
def pressActive (events : List MouseEvent) : Bool :=
  events.foldl (fun active e =>
    match e with
    | .press _ => true
    | .move _ => active
    | .release _ => false) false

/-- Embedding of `MusicPlayer::updateState`. -/
def MusicPlayer.updateState (self : MusicPlayer) (state : State) : MusicPlayer :=
  if state = .PlayingState then
    { self with playButton :=
        { self.playButton with toolTip := tr "Pause", icon := .SP_MediaPause } }
  else
    { self with playButton :=
        { self.playButton with toolTip := tr "Play", icon := .SP_MediaPlay } }

/-- Embedding of `MusicPlayer::setPosition(int position)`: the difference and its absolute
value are computed in `qint64`. -/
def setPosition (mediaPlayer : QMediaPlayer) (position : Int) : List EngineCommand :=
  if qAbs toInt64 (toInt64 (mediaPlayer.position - position)) > 99 then
    [.setPosition position]
  else []

/-- The slider's `valueChanged` signal is connected to `setPosition`. -/
def valueChanged (mediaPlayer : QMediaPlayer) : Option Int → List EngineCommand
  | none => []
  | some value => setPosition mediaPlayer value

/-- Embedding of `MusicPlayer::updatePosition`. -/
def MusicPlayer.updatePosition (self : MusicPlayer) (mediaPlayer : QMediaPlayer)
    (position : Int) : MusicPlayer × List EngineCommand :=
  let r := self.positionSlider.setValue (toInt position)
  ({ self with positionSlider := r.1, positionLabel := formatTime position },
    valueChanged mediaPlayer r.2)

/-- Embedding of `MusicPlayer::updateInfo`. -/
def MusicPlayer.updateInfo (self : MusicPlayer) (mediaPlayer : QMediaPlayer) : MusicPlayer :=
  let info : List QString := []
  let info := if ¬ self.fileName.isEmpty then info ++ [self.fileName] else info
  let info :=
    if mediaPlayer.isMetaDataAvailable then
      let author := mediaPlayer.author
      let info := if ¬ author.isEmpty then info ++ [author] else info
      let title := mediaPlayer.title
      if ¬ title.isEmpty then info ++ [title] else info
    else info
  let info := info ++ [formatTime mediaPlayer.duration]
  { self with
    times := formatTime mediaPlayer.duration
    infoLabel := join info (tr " - ") }

/-- Embedding of `MusicPlayer::updateDuration`. -/
def MusicPlayer.updateDuration (self : MusicPlayer) (mediaPlayer : QMediaPlayer)
    (duration : Int) : MusicPlayer × List EngineCommand :=
  let r := self.positionSlider.setRange 0 (toInt duration)
  let slider := r.1.setEnabled (decide (duration > 0))
  let slider := slider.setPageStep (toInt (Int.tdiv duration 10))
  (({ self with positionSlider := slider }).updateInfo mediaPlayer,
    valueChanged mediaPlayer r.2)

/-- Embedding of `MusicPlayer::handleError`. -/
def MusicPlayer.handleError (self : MusicPlayer) (mediaPlayer : QMediaPlayer) : MusicPlayer :=
  let self := { self with playButton := { self.playButton with enabled := false } }
  let errorString := mediaPlayer.errorString
  { self with infoLabel :=
      if errorString.isEmpty then argInt (tr "Unknown error #%1") mediaPlayer.error 0 ' '
      else arg (tr "Error: %1") errorString 0 ' ' }

/-- Embedding of `MusicPlayer::updateTaskbar`. -/
def updateTaskbar (mediaPlayer : QMediaPlayer) : List ShellCommand :=
  match mediaPlayer.state with
  | .PlayingState => [.setOverlayIcon .SP_MediaPlay, .progressShow, .progressResume]
  | .PausedState => [.setOverlayIcon .SP_MediaPause, .progressShow, .progressPause]
  | .StoppedState => [.setOverlayIcon .SP_MediaStop, .progressHide]

/-- Embedding of `MusicPlayer::updateThumbnailToolBar`. -/
def updateThumbnailToolBar (mediaPlayer : QMediaPlayer) (bar : ThumbnailToolBar) :
    ThumbnailToolBar :=
  let bar := { bar with playToolButton :=
    { bar.playToolButton with enabled := decide (mediaPlayer.duration > 0) } }
  let bar := { bar with backwardToolButton :=
    { bar.backwardToolButton with enabled := decide (mediaPlayer.position > 0) } }
  let bar := { bar with forwardToolButton :=
    { bar.forwardToolButton with
      enabled := decide (mediaPlayer.position < mediaPlayer.duration) } }
  if mediaPlayer.state = .PlayingState then
    { bar with playToolButton :=
        { bar.playToolButton with toolTip := tr "Pause", icon := .SP_MediaPause } }
  else
    { bar with playToolButton :=
        { bar.playToolButton with toolTip := tr "Play", icon := .SP_MediaPlay } }

/-! ## Reference notions and sample data -/

/-- The decimal notation of an integer: a minus sign for a negative number,
then the digits of its magnitude. -/
def decimal (c : Int) : QString :=
  if c < 0 then '-' :: Nat.toDigits 10 c.natAbs else Nat.toDigits 10 c.natAbs

/-- The parts of the info line, in the spec's words: display name, author and
title, each only if non-empty, author and title only when metadata is
available, and the formatted duration last. -/
def infoParts (displayName author title : QString) (metaDataAvailable : Bool)
    (duration : Int) : List QString :=
  ([displayName] ++ (if metaDataAvailable then [author, title] else [])).filter
      (fun part => part ≠ [])
    ++ [formatTime duration]

/-- An engine snapshot with media loaded: its state, position and duration. -/
def loaded (state : State) (position duration : Int) : QMediaPlayer :=
  { mediaStatus := .LoadedMedia
    state := state
    position := position
    duration := duration
    isMetaDataAvailable := false
    author := []
    title := []
    errorString := []
    error := 0 }

/-- An engine snapshot after a failure, with its message and error code. -/
def failed (errorString : QString) (error : Int) : QMediaPlayer :=
  { mediaStatus := .InvalidMedia
    state := .StoppedState
    position := 0
    duration := 0
    isMetaDataAvailable := false
    author := []
    title := []
    errorString := errorString
    error := error }

/-! # Theorems -/

/-! ## Strings and time display -/

theorem digitChar_ne_percent : ∀ d, d < 10 → Nat.digitChar d ≠ '%' := by decide

theorem toDigitsCore_no_percent (fuel : Nat) : ∀ (n : Nat) (acc : List Char),
    (∀ c ∈ acc, c ≠ '%') → ∀ c ∈ Nat.toDigitsCore 10 fuel n acc, c ≠ '%' := by
  induction fuel with
  | zero => intro n acc h; simpa [Nat.toDigitsCore] using h
  | succ f ih =>
    intro n acc h
    have hd : Nat.digitChar (n % 10) ≠ '%' := digitChar_ne_percent _ (Nat.mod_lt _ (by decide))
    have hacc : ∀ c ∈ Nat.digitChar (n % 10) :: acc, c ≠ '%' := by
      intro c hc
      rcases List.mem_cons.mp hc with rfl | hc
      · exact hd
      · exact h c hc
    unfold Nat.toDigitsCore
    by_cases hz : n / 10 = 0
    · simpa [hz] using hacc
    · simpa [hz] using ih (n / 10) _ hacc

theorem toDigits_no_percent (n : Nat) : ∀ c ∈ Nat.toDigits 10 n, c ≠ '%' :=
  toDigitsCore_no_percent _ _ _ (by simp)

theorem tokens_text_append (ds rest : List Char) (h : ∀ c ∈ ds, c ≠ '%') :
    tokens .text (ds ++ rest) = ds.map Piece.ch ++ tokens .text rest := by
  induction ds with
  | nil => rfl
  | cons d ds ih =>
    have hd : d ≠ '%' := h d (List.mem_cons_self _ _)
    have := ih (fun c hc => h c (List.mem_cons_of_mem _ hc))
    simp [tokens, hd, this]

theorem lowestEscape_map_ch (ds : List Char) (ps : List Piece) :
    lowestEscape (ds.map Piece.ch ++ ps) = lowestEscape ps := by
  induction ds with
  | nil => rfl
  | cons d ds ih => simpa [lowestEscape] using ih

theorem replaceArgEscapes_map_ch (k : Nat) (a : QString) (ds : List Char) (ps : List Piece) :
    replaceArgEscapes k a (ds.map Piece.ch ++ ps) = ds ++ replaceArgEscapes k a ps := by
  induction ds with
  | nil => rfl
  | cons d ds ih => simpa [replaceArgEscapes] using ih

/-- Formatting a non-negative number in a zero-filled field of `w` characters
is padding its digits on the left. -/
theorem longLongToString_nonneg (l : Int) (h : 0 ≤ l) (w : Nat) :
    longLongToString l w true = List.leftpad w '0' (Nat.toDigits 10 l.toNat) := by
  have hn : ¬ (l < 0) := by omega
  have he : l.natAbs = l.toNat := by omega
  simp [longLongToString, hn, he, List.leftpad]

theorem leftpad_leftpad (w : Nat) (c : Char) (l : List Char) :
    List.leftpad w c (List.leftpad w c l) = List.leftpad w c l := by
  have h0 : w - (List.leftpad w c l).length = 0 := by
    rw [List.leftpad_length]; omega
  conv_lhs => rw [List.leftpad, h0]
  simp

theorem leftpad_no_percent (w n : Nat) :
    ∀ c ∈ List.leftpad w '0' (Nat.toDigits 10 n), c ≠ '%' := by
  intro c hc
  simp only [List.leftpad, List.mem_append, List.mem_replicate] at hc
  rcases hc with ⟨_, rfl⟩ | hc
  · decide
  · exact toDigits_no_percent n c hc

/-- Filling the first marker of the time pattern. -/
theorem arg_pattern_first (a : QString) (w : Nat) (c : Char) :
    arg "%1:%2".toList a w c = List.leftpad w c a ++ [':', '%', '2'] := by
  have ht : tokens .text "%1:%2".toList
      = [.marker 1 ['%', '1'], .ch ':', .marker 2 ['%', '2']] := by decide
  unfold arg
  rw [ht]
  simp [lowestEscape, replaceArgEscapes]

/-- Filling the second marker, after a first part without a percent sign. -/
theorem arg_pattern_second (p a : QString) (w : Nat) (c : Char) (hp : ∀ x ∈ p, x ≠ '%') :
    arg (p ++ [':', '%', '2']) a w c = p ++ ':' :: List.leftpad w c a := by
  have ht : tokens .text [':', '%', '2'] = [.ch ':', .marker 2 ['%', '2']] := by decide
  unfold arg
  rw [tokens_text_append _ _ hp, ht, lowestEscape_map_ch]
  simp [lowestEscape, replaceArgEscapes, replaceArgEscapes_map_ch]

theorem toDigits_length_two : ∀ s, s < 60 → (Nat.toDigits 10 s).length ≤ 2 := by decide

/-- C1: for every non-negative `ms`, `formatTime ms` is the decimal of
`ms / 60000` padded with zeros on the left to at least two digits, a colon, and
the decimal of `(ms / 1000) mod 60` padded with zeros to exactly two digits; in
particular 0 gives "00:00", 65000 gives "01:05" and 3661000 gives "61:01". -/
theorem formatTime_spec (ms : Int) (h : 0 ≤ ms) :
    formatTime ms
        = List.leftpad 2 '0' (Nat.toDigits 10 (ms / 60000).toNat)
            ++ ':' :: List.leftpad 2 '0' (Nat.toDigits 10 (ms / 1000 % 60).toNat)
      ∧ 2 ≤ (List.leftpad 2 '0' (Nat.toDigits 10 (ms / 60000).toNat)).length
      ∧ (List.leftpad 2 '0' (Nat.toDigits 10 (ms / 1000 % 60).toNat)).length = 2
      ∧ formatTime 0 = "00:00".toList
      ∧ formatTime 65000 = "01:05".toList
      ∧ formatTime 3661000 = "61:01".toList := by
  have hq : Int.tdiv ms 1000 = ms / 1000 := Int.tdiv_eq_ediv h (by decide)
  have hq0 : 0 ≤ ms / 1000 := by omega
  have hm : Int.tdiv (ms / 1000) 60 = ms / 60000 := by
    rw [Int.tdiv_eq_ediv hq0 (by decide)]; omega
  have hs : ms / 1000 - ms / 60000 * 60 = ms / 1000 % 60 := by omega
  have hm0 : 0 ≤ ms / 60000 := by omega
  have hs0 : 0 ≤ ms / 1000 % 60 := by omega
  have hlen : (Nat.toDigits 10 (ms / 1000 % 60).toNat).length ≤ 2 :=
    toDigits_length_two _ (by omega)
  refine ⟨?_, ?_, ?_, by decide, by decide, by decide⟩
  · simp only [formatTime]
    rw [hq, hm, hs]
    unfold argInt
    simp only [decide_True]
    rw [longLongToString_nonneg _ hm0, longLongToString_nonneg _ hs0, arg_pattern_first,
      leftpad_leftpad, arg_pattern_second _ _ _ _ (leftpad_no_percent _ _), leftpad_leftpad]
  · rw [List.leftpad_length]; omega
  · rw [List.leftpad_length]; omega

/-- The time display of 123456 ms. -/
theorem formatTime_spec_witness :
    formatTime 123456
      = List.leftpad 2 '0' (Nat.toDigits 10 ((123456 : Int) / 60000).toNat)
          ++ ':' :: List.leftpad 2 '0' (Nat.toDigits 10 ((123456 : Int) / 1000 % 60).toNat) :=
  (formatTime_spec 123456 (by decide)).1

/-! ## Seeking -/

/-- C2: when the subtraction of the slider value from the engine position does
not overflow, `setPosition` issues no command for a difference of at most 99 and
exactly one seek command, with the slider value, for a larger difference. -/
theorem setPosition_dead_zone (mediaPlayer : QMediaPlayer) (v : Int)
    (hlo : -(2 ^ 63) < mediaPlayer.position - v) (hhi : mediaPlayer.position - v < 2 ^ 63) :
    (|mediaPlayer.position - v| ≤ 99 → setPosition mediaPlayer v = []) ∧
    (|mediaPlayer.position - v| > 99 →
      setPosition mediaPlayer v = [EngineCommand.setPosition v]) := by
  have hw : toInt64 (mediaPlayer.position - v) = mediaPlayer.position - v := by
    unfold toInt64; omega
  have ha : qAbs toInt64 (mediaPlayer.position - v) = |mediaPlayer.position - v| := by
    unfold qAbs toInt64
    split
    · rw [abs_of_nonneg (by omega)]
    · rw [abs_of_neg (by omega)]; omega
  unfold setPosition
  rw [hw, ha]
  constructor
  · intro h; rw [if_neg (by omega)]
  · intro h; rw [if_pos h]

/-- The dead zone at engine position 5000. -/
theorem setPosition_dead_zone_witness :
    setPosition (loaded .PlayingState 5000 60000) 5050 = [] ∧
    setPosition (loaded .PlayingState 5000 60000) 9000
      = [EngineCommand.setPosition 9000] :=
  ⟨(setPosition_dead_zone (loaded .PlayingState 5000 60000) 5050
      (by decide) (by decide)).1 (by decide),
   (setPosition_dead_zone (loaded .PlayingState 5000 60000) 9000
      (by decide) (by decide)).2 (by decide)⟩

/-! ## Drag and drop -/

/-- C4: `togglePlayback` runs the open-file flow, and nothing else, when the
engine reports no media; otherwise it issues the single command `pause` when
the engine is playing and the single command `play` when it is paused or
stopped, leaving the widget as it is. -/
theorem togglePlayback_cases (self : MusicPlayer) (mediaPlayer : QMediaPlayer)
    (fileDialog : QFileDialog) :
    (mediaPlayer.mediaStatus = MediaStatus.NoMedia →
      self.togglePlayback mediaPlayer fileDialog = self.openFile fileDialog) ∧
    (mediaPlayer.mediaStatus ≠ MediaStatus.NoMedia → mediaPlayer.state = State.PlayingState →
      self.togglePlayback mediaPlayer fileDialog = (self, [EngineCommand.pause])) ∧
    (mediaPlayer.mediaStatus ≠ MediaStatus.NoMedia →
      mediaPlayer.state = State.PausedState ∨ mediaPlayer.state = State.StoppedState →
      self.togglePlayback mediaPlayer fileDialog = (self, [EngineCommand.play])) ∧
    (∀ selected, self.openFile (QFileDialog.rejected selected)
      = ({ self with Url := selected }, [])) := by
  refine ⟨?_, ?_, ?_, fun _ => rfl⟩
  · intro h; simp [MusicPlayer.togglePlayback, h]
  · intro h hs; simp [MusicPlayer.togglePlayback, h, hs]
  · intro h hs
    have : mediaPlayer.state ≠ State.PlayingState := by
      rcases hs with hs | hs <;> simp [hs]
    simp [MusicPlayer.togglePlayback, h, this]

/-- The three branches of `togglePlayback` on the new widget. -/
theorem togglePlayback_cases_witness :
    (createWidgets QPoint.null).togglePlayback
        { loaded .StoppedState 0 0 with mediaStatus := .NoMedia } (QFileDialog.rejected [])
      = (createWidgets QPoint.null).openFile (QFileDialog.rejected []) ∧
    (createWidgets QPoint.null).togglePlayback
        (loaded .PlayingState 0 0) (QFileDialog.rejected [])
      = (createWidgets QPoint.null, [EngineCommand.pause]) ∧
    (createWidgets QPoint.null).togglePlayback
        (loaded .PausedState 0 0) (QFileDialog.rejected [])
      = (createWidgets QPoint.null, [EngineCommand.play]) :=
  ⟨(togglePlayback_cases _ { loaded .StoppedState 0 0 with mediaStatus := .NoMedia } _).1 rfl,
   (togglePlayback_cases _ (loaded .PlayingState 0 0) _).2.1
      (by decide) rfl,
   (togglePlayback_cases _ (loaded .PausedState 0 0) _).2.2.1
      (by decide) (Or.inl rfl)⟩

/-! ## Errors -/

theorem arg_unknown_error (a : QString) :
    arg (tr "Unknown error #%1") a 0 ' ' = "Unknown error #".toList ++ a := by
  have ht : tokens .text (tr "Unknown error #%1")
      = ("Unknown error #".toList).map Piece.ch ++ [.marker 1 ['%', '1']] := by decide
  unfold arg
  rw [ht, lowestEscape_map_ch]
  simp [lowestEscape, replaceArgEscapes, replaceArgEscapes_map_ch, List.leftpad]

theorem arg_error (a : QString) :
    arg (tr "Error: %1") a 0 ' ' = "Error: ".toList ++ a := by
  have ht : tokens .text (tr "Error: %1")
      = ("Error: ".toList).map Piece.ch ++ [.marker 1 ['%', '1']] := by decide
  unfold arg
  rw [ht, lowestEscape_map_ch]
  simp [lowestEscape, replaceArgEscapes, replaceArgEscapes_map_ch, List.leftpad]

/-- C5: `handleError` disables the play button; with an empty engine message the
info line is "Unknown error #" followed by the decimal error code, with a
non-empty message it is "Error: " followed by the message. -/
theorem handleError_info (self : MusicPlayer) (mediaPlayer : QMediaPlayer) :
    (self.handleError mediaPlayer).playButton.enabled = false ∧
    (mediaPlayer.errorString = [] →
      (self.handleError mediaPlayer).infoLabel
        = "Unknown error #".toList ++ decimal mediaPlayer.error) ∧
    (mediaPlayer.errorString ≠ [] →
      (self.handleError mediaPlayer).infoLabel
        = "Error: ".toList ++ mediaPlayer.errorString) := by
  refine ⟨rfl, ?_, ?_⟩
  · intro h
    have hl : longLongToString mediaPlayer.error 0 false = decimal mediaPlayer.error := by
      unfold longLongToString decimal
      by_cases hn : mediaPlayer.error < 0 <;> simp [hn]
    simp only [MusicPlayer.handleError, h, List.isEmpty_nil, if_true, argInt]
    rw [show decide ((' ' : Char) = '0') = false by decide, hl, arg_unknown_error]
  · intro h
    have he : mediaPlayer.errorString.isEmpty = false := by
      cases hs : mediaPlayer.errorString with
      | nil => exact absurd hs h
      | cons c cs => rfl
    simp only [MusicPlayer.handleError, he, arg_error]
    simp

/-- Error code 3 without and with a message. -/
theorem handleError_info_witness :
    ((createWidgets QPoint.null).handleError
        (failed [] 3)).infoLabel
      = "Unknown error #".toList ++ decimal 3 ∧
    ((createWidgets QPoint.null).handleError
        (failed "no codec".toList 3)).infoLabel
      = "Error: ".toList ++ "no codec".toList :=
  ⟨(handleError_info _ (failed [] 3)).2.1 rfl,
   (handleError_info _
      (failed "no codec".toList 3)).2.2
      (by decide)⟩

/-! ## Position and duration -/

theorem toInt_of_range (x : Int) (h0 : 0 ≤ x) (h1 : x ≤ 2147483647) : toInt x = x := by
  unfold toInt; omega

/-- C6, as stated, fails: a duration of 2147483648 ms does not fit the slider's
`int` range, and after `updateDuration 2147483648` and `updatePosition 0` the
slider's range is `[0, 0]`, not `[0, 2147483648]`. -/
theorem updateDuration_range_overflow :
    (0 : Int) ≤ 0 ∧ (0 : Int) ≤ 2147483648 ∧
    ((((createWidgets QPoint.null).updateDuration (loaded .PlayingState 0 2147483648)
          2147483648).1).updatePosition (loaded .PlayingState 0 2147483648)
          0).1.positionSlider.maximum = 0 ∧
    ((((createWidgets QPoint.null).updateDuration (loaded .PlayingState 0 2147483648)
          2147483648).1).updatePosition (loaded .PlayingState 0 2147483648)
          0).1.positionSlider.maximum ≠ 2147483648 := by
  decide

theorem setValue_fields (s : QSlider) (v : Int) :
    (s.setValue v).1.minimum = s.minimum ∧ (s.setValue v).1.maximum = s.maximum ∧
    (s.setValue v).1.value = max s.minimum (min s.maximum v) ∧
    (s.setValue v).1.pageStep = s.pageStep ∧ (s.setValue v).1.enabled = s.enabled := by
  unfold QSlider.setValue
  by_cases h : s.value = max s.minimum (min s.maximum v)
  · rw [if_pos h]; exact ⟨rfl, rfl, h, rfl, rfl⟩
  · rw [if_neg h]; exact ⟨rfl, rfl, rfl, rfl, rfl⟩

theorem setRange_fields (s : QSlider) (lo hi : Int) :
    (s.setRange lo hi).1.minimum = lo ∧ (s.setRange lo hi).1.maximum = max lo hi := by
  unfold QSlider.setRange
  simp only []
  split
  · exact ⟨(setValue_fields _ _).1, (setValue_fields _ _).2.1⟩
  · exact ⟨rfl, rfl⟩

/-- C6, amended: for `0 ≤ p ≤ d ≤ 2147483647`, after `updateDuration d` and
then `updatePosition p` the slider's range is `[0, d]`, its value is `p`, it is
enabled iff `d > 0`, its page step is `d / 10`, and the position label shows
`formatTime p`. -/
theorem updateDuration_updatePosition (self : MusicPlayer) (mp1 mp2 : QMediaPlayer)
    (p d : Int) (h0 : 0 ≤ p) (hpd : p ≤ d) (hd : d ≤ 2147483647) :
    ((self.updateDuration mp1 d).1.updatePosition mp2 p).1.positionSlider.minimum = 0 ∧
    ((self.updateDuration mp1 d).1.updatePosition mp2 p).1.positionSlider.maximum = d ∧
    ((self.updateDuration mp1 d).1.updatePosition mp2 p).1.positionSlider.value = p ∧
    (((self.updateDuration mp1 d).1.updatePosition mp2 p).1.positionSlider.enabled = true
      ↔ d > 0) ∧
    ((self.updateDuration mp1 d).1.updatePosition mp2 p).1.positionSlider.pageStep = d / 10 ∧
    ((self.updateDuration mp1 d).1.updatePosition mp2 p).1.positionLabel = formatTime p := by
  have hd0 : 0 ≤ d := le_trans h0 hpd
  have e1 : toInt d = d := toInt_of_range d hd0 hd
  have e2 : toInt p = p := toInt_of_range p h0 (le_trans hpd hd)
  have e3 : Int.tdiv d 10 = d / 10 := Int.tdiv_eq_ediv hd0 (by decide)
  have e4 : toInt (d / 10) = d / 10 := toInt_of_range _ (by omega) (by omega)
  have e5 : qAbs toInt (d / 10) = d / 10 := by
    unfold qAbs; rw [if_pos (by omega)]
  obtain ⟨r1, r2⟩ := setRange_fields self.positionSlider 0 (toInt d)
  rw [e1, max_eq_right hd0] at r2
  have hs : (self.updateDuration mp1 d).1.positionSlider
      = { (self.positionSlider.setRange 0 d).1 with
          enabled := decide (d > 0), pageStep := d / 10 } := by
    simp only [MusicPlayer.updateDuration, MusicPlayer.updateInfo, QSlider.setEnabled,
      QSlider.setPageStep, e1, e3, e4, e5]
  have hu : ((self.updateDuration mp1 d).1.updatePosition mp2 p).1.positionSlider
      = ((self.updateDuration mp1 d).1.positionSlider.setValue p).1 := by
    simp only [MusicPlayer.updatePosition, e2]
  obtain ⟨v1, v2, v3, v4, v5⟩ := setValue_fields (self.updateDuration mp1 d).1.positionSlider p
  rw [e1] at r1
  rw [hu, v1, v2, v3, v4, v5, hs]
  simp only [r1, r2, min_eq_right hpd, max_eq_right h0, decide_eq_true_eq]
  exact ⟨trivial, trivial, trivial, trivial, trivial, rfl⟩

/-- A track of 200 s at 65 s. -/
theorem updateDuration_updatePosition_witness :
    (((createWidgets QPoint.null).updateDuration
        (loaded .PlayingState 0 200000) 200000).1.updatePosition
        (loaded .PlayingState 65000 200000)
        65000).1.positionSlider.maximum = 200000 :=
  (updateDuration_updatePosition (createWidgets QPoint.null)
    (loaded .PlayingState 0 200000)
    (loaded .PlayingState 65000 200000)
    65000 200000 (by decide) (by decide) (by decide)).2.1

/-! ## Thumbnail tool bar -/

/-- C7: for `0 ≤ p ≤ d`, `updateThumbnailToolBar` enables "play" iff `d > 0`,
disables "backward" exactly when `p = 0` and "forward" exactly when `p = d`;
the three flags are the same for any two engine snapshots, and any two tool
bars, that agree on position and duration. -/
theorem updateThumbnailToolBar_flags (mediaPlayer : QMediaPlayer) (bar : ThumbnailToolBar)
    (h0 : 0 ≤ mediaPlayer.position) (hpd : mediaPlayer.position ≤ mediaPlayer.duration) :
    ((updateThumbnailToolBar mediaPlayer bar).playToolButton.enabled = true
      ↔ mediaPlayer.duration > 0) ∧
    ((updateThumbnailToolBar mediaPlayer bar).backwardToolButton.enabled = true
      ↔ mediaPlayer.position > 0) ∧
    ((updateThumbnailToolBar mediaPlayer bar).backwardToolButton.enabled = false
      ↔ mediaPlayer.position = 0) ∧
    ((updateThumbnailToolBar mediaPlayer bar).forwardToolButton.enabled = true
      ↔ mediaPlayer.position < mediaPlayer.duration) ∧
    ((updateThumbnailToolBar mediaPlayer bar).forwardToolButton.enabled = false
      ↔ mediaPlayer.position = mediaPlayer.duration) ∧
    (∀ (other : QMediaPlayer) (bar2 : ThumbnailToolBar),
      other.position = mediaPlayer.position → other.duration = mediaPlayer.duration →
      (updateThumbnailToolBar other bar2).playToolButton.enabled
          = (updateThumbnailToolBar mediaPlayer bar).playToolButton.enabled ∧
      (updateThumbnailToolBar other bar2).backwardToolButton.enabled
          = (updateThumbnailToolBar mediaPlayer bar).backwardToolButton.enabled ∧
      (updateThumbnailToolBar other bar2).forwardToolButton.enabled
          = (updateThumbnailToolBar mediaPlayer bar).forwardToolButton.enabled) := by
  have key : ∀ (m : QMediaPlayer) (b : ThumbnailToolBar),
      (updateThumbnailToolBar m b).playToolButton.enabled = decide (m.duration > 0) ∧
      (updateThumbnailToolBar m b).backwardToolButton.enabled = decide (m.position > 0) ∧
      (updateThumbnailToolBar m b).forwardToolButton.enabled
        = decide (m.position < m.duration) := by
    intro m b
    unfold updateThumbnailToolBar
    by_cases hs : m.state = State.PlayingState <;> simp [hs]
  obtain ⟨k1, k2, k3⟩ := key mediaPlayer bar
  rw [k1, k2, k3]
  refine ⟨by simp, by simp, ?_, by simp, ?_, ?_⟩
  · rw [decide_eq_false_iff_not]; omega
  · rw [decide_eq_false_iff_not]; omega
  · intro other bar2 e1 e2
    obtain ⟨o1, o2, o3⟩ := key other bar2
    rw [o1, o2, o3, e1, e2]
    exact ⟨rfl, rfl, rfl⟩

/-- At position 0 of a track of 200 s the backward button is disabled. -/
theorem updateThumbnailToolBar_flags_witness :
    (updateThumbnailToolBar (loaded .PausedState 0 200000)
        ⟨⟨false, [], .SP_MediaPlay⟩, ⟨false, [], .SP_MediaPlay⟩,
          ⟨true, [], .SP_MediaPlay⟩⟩).backwardToolButton.enabled = false
      ↔ (0 : Int) = 0 :=
  (updateThumbnailToolBar_flags (loaded .PausedState 0 200000)
    ⟨⟨false, [], .SP_MediaPlay⟩, ⟨false, [], .SP_MediaPlay⟩, ⟨true, [], .SP_MediaPlay⟩⟩
    (by decide) (by decide)).2.2.1

/-! ## Info line -/

/-- C8, as stated, fails: with file name "song.mp3" and a duration of 65 s, the
info line is "song.mp3 - 01:05", while joining the parts with "-" gives
"song.mp3-01:05". -/
theorem updateInfo_separator_is_spaced :
    (MusicPlayer.updateInfo { createWidgets QPoint.null with fileName := "song.mp3".toList }
        (loaded .PlayingState 0 65000)).infoLabel
      = "song.mp3 - 01:05".toList ∧
    join (infoParts "song.mp3".toList [] [] false 65000) "-".toList
      = "song.mp3-01:05".toList ∧
    (MusicPlayer.updateInfo { createWidgets QPoint.null with fileName := "song.mp3".toList }
        (loaded .PlayingState 0 65000)).infoLabel
      ≠ join (infoParts "song.mp3".toList [] [] false 65000) "-".toList := by
  decide

/-- C8, amended: `updateInfo` sets the info line to the parts display name,
author, title (each only if non-empty, author and title only when metadata is
available) and formatted duration, in this order, joined with " - ". -/
theorem updateInfo_parts (self : MusicPlayer) (mediaPlayer : QMediaPlayer) :
    (self.updateInfo mediaPlayer).infoLabel
      = join (infoParts self.fileName mediaPlayer.author mediaPlayer.title
          mediaPlayer.isMetaDataAvailable mediaPlayer.duration) " - ".toList := by
  unfold MusicPlayer.updateInfo infoParts
  cases hf : self.fileName <;> cases hm : mediaPlayer.isMetaDataAvailable <;>
    cases ha : mediaPlayer.author <;> cases ht : mediaPlayer.title <;>
    simp [tr, List.filter]

/-! ## Window dragging -/

/-- C9, as stated, fails: a move event at (5, 5) received before any press, or
after a release, moves the window from (100, 100) to (5, 5). -/
theorem stray_move_relocates_window :
    pressActive [] = false ∧
    ((createWidgets ⟨100, 100⟩).mouseEvents [MouseEvent.move ⟨5, 5⟩]).pos = ⟨5, 5⟩ ∧
    ((createWidgets ⟨100, 100⟩).mouseEvents []).pos = ⟨100, 100⟩ ∧
    pressActive [MouseEvent.press ⟨110, 120⟩, MouseEvent.release ⟨110, 120⟩] = false ∧
    ((createWidgets ⟨100, 100⟩).mouseEvents
      [MouseEvent.press ⟨110, 120⟩, MouseEvent.release ⟨110, 120⟩,
        MouseEvent.move ⟨5, 5⟩]).pos = ⟨5, 5⟩ ∧
    ((createWidgets ⟨100, 100⟩).mouseEvents
      [MouseEvent.press ⟨110, 120⟩, MouseEvent.release ⟨110, 120⟩]).pos = ⟨100, 100⟩ := by
  decide

theorem QPoint.sub_null (g : QPoint) : g - QPoint.null = g := by
  cases g with
  | mk x y =>
    show QPoint.mk (x - 0) (y - 0) = QPoint.mk x y
    simp

/-- While no press is active the stored offset is the null point. -/
theorem offset_null_of_not_pressActive (events : List MouseEvent) :
    ∀ (self : MusicPlayer), self.offset = QPoint.null → pressActive events = false →
      (self.mouseEvents events).offset = QPoint.null := by
  induction events using List.reverseRecOn with
  | nil => intro self h _; exact h
  | append_singleton es e ih =>
    intro self h ha
    unfold MusicPlayer.mouseEvents pressActive at *
    rw [List.foldl_append] at ha ⊢
    cases e with
    | press g => simp at ha
    | move g => exact ih self h (by simpa using ha)
    | release g => rfl

/-- C9, amended: starting from a widget whose stored offset is the null point
(as after construction), a move event received while no press is active (before
any press, or after a release and before the next press) is not ignored: it
places the window at the event's global position. -/
theorem move_without_press (self : MusicPlayer) (events : List MouseEvent) (g : QPoint)
    (h0 : self.offset = QPoint.null) (ha : pressActive events = false) :
    (self.mouseEvents (events ++ [MouseEvent.move g])).pos = g := by
  have ho := offset_null_of_not_pressActive events self h0 ha
  unfold MusicPlayer.mouseEvents at *
  simp only [List.foldl_append, List.foldl_cons, List.foldl_nil, MusicPlayer.mouseEvent,
    MusicPlayer.mouseMoveEvent, ho, QPoint.sub_null]

/-- A move after a press and its release. -/
theorem move_without_press_witness :
    ((createWidgets ⟨100, 100⟩).mouseEvents
      ([MouseEvent.press ⟨110, 120⟩, MouseEvent.release ⟨110, 120⟩]
        ++ [MouseEvent.move ⟨5, 5⟩])).pos = ⟨5, 5⟩ :=
  (move_without_press (createWidgets ⟨100, 100⟩)
    [MouseEvent.press ⟨110, 120⟩, MouseEvent.release ⟨110, 120⟩] ⟨5, 5⟩ rfl (by decide))

/-! ## State projection -/

/-- C10: `updateState` shows the pause icon and "Pause" on the transport button
iff the state is playing, and the play icon and "Play" for every other state;
`updateTaskbar` sets the play overlay and shows and resumes the progress when
playing, sets the pause overlay and shows and pauses the progress when paused,
and sets the stop overlay and hides the progress when stopped. -/
theorem state_projection (self : MusicPlayer) (mediaPlayer : QMediaPlayer) (state : State) :
    (((self.updateState state).playButton.icon = StandardPixmap.SP_MediaPause ∧
        (self.updateState state).playButton.toolTip = "Pause".toList)
      ↔ state = State.PlayingState) ∧
    (((self.updateState state).playButton.icon = StandardPixmap.SP_MediaPlay ∧
        (self.updateState state).playButton.toolTip = "Play".toList)
      ↔ state ≠ State.PlayingState) ∧
    (mediaPlayer.state = State.PlayingState → updateTaskbar mediaPlayer
      = [ShellCommand.setOverlayIcon StandardPixmap.SP_MediaPlay, ShellCommand.progressShow,
          ShellCommand.progressResume]) ∧
    (mediaPlayer.state = State.PausedState → updateTaskbar mediaPlayer
      = [ShellCommand.setOverlayIcon StandardPixmap.SP_MediaPause, ShellCommand.progressShow,
          ShellCommand.progressPause]) ∧
    (mediaPlayer.state = State.StoppedState → updateTaskbar mediaPlayer
      = [ShellCommand.setOverlayIcon StandardPixmap.SP_MediaStop,
          ShellCommand.progressHide]) := by
  refine ⟨?_, ?_, ?_, ?_, ?_⟩
  · cases state <;> simp [MusicPlayer.updateState, tr]
  · cases state <;> simp [MusicPlayer.updateState, tr]
  · intro h; simp [updateTaskbar, h]
  · intro h; simp [updateTaskbar, h]
  · intro h; simp [updateTaskbar, h]

/-- The task bar of a paused engine. -/
theorem state_projection_witness :
    updateTaskbar (loaded .PausedState 0 200000)
      = [ShellCommand.setOverlayIcon StandardPixmap.SP_MediaPause, ShellCommand.progressShow,
          ShellCommand.progressPause] :=
  (state_projection (createWidgets QPoint.null)
    (loaded .PausedState 0 200000) State.PausedState).2.2.2.1 rfl

end QtMusicPlayer
